import Mathlib

/-!
Shallow embedding of `src/index.js` of the ramen-rater client.

The script manipulates a collection view container (`#ramen-menu`), a fixed
set of five detail slots, and a form (`#new-ramen`).  Network calls are
modelled by passing in the `FetchResult` the remote source would deliver;
DOM mutation becomes explicit state passing; `console.error` calls are
counted in a `logs` field; issued requests are recorded so that absence of
network traffic is provable.
-/

/-- An Item as delivered by the remote source (`GET /ramens`,
`GET /ramens/:id`).  `id` is stored as the string value it takes once
written into `img.dataset.id` (dataset attributes are strings). -/
structure Ramen where
  id : String
  name : String
  restaurant : String
  image : String
  rating : String
  comment : String
deriving Repr, DecidableEq

/-- An Item constructed locally by the form handler: the object literal in
`handleFormSubmit` has exactly these five fields and no `id`. -/
structure NewRamen where
  name : String
  restaurant : String
  image : String
  rating : String
  comment : String
deriving Repr, DecidableEq

/-- An `<img>` element as built by the script: `src`, `alt`, the optional
`data-id` attribute, its CSS class list, and whether a click listener was
attached to it. -/
structure ImgNode where
  src : String
  alt : String
  dataId : Option String
  cssClasses : List String
  hasClickHandler : Bool
deriving Repr, DecidableEq

/-- A child of the collection view container: either an image node or text
content (the failure message written via `innerHTML`). -/
inductive MenuChild where
  | img (node : ImgNode)
  | text (content : String)
deriving Repr, DecidableEq

/-- The five detail slots plus the image `alt` attribute, mirroring
`#detail-image` (src and alt), `#detail-name`, `#detail-restaurant`,
`#detail-rating`, `#detail-comment`. -/
structure DetailView where
  imageSrc : String
  imageAlt : String
  name : String
  restaurant : String
  rating : String
  comment : String
deriving Repr, DecidableEq

/-- Outcome of a fetch as observed by the continuation: either the decoded
payload (response ok and JSON decoded), or an error (transport failure or
non-ok status, both reach the `.catch` branch). -/
inductive FetchResult (α : Type) where
  | ok (value : α)
  | error (message : String)
deriving Repr, DecidableEq

def baseURL : String := "http://localhost:3000"

/-- URL of the collection endpoint. -/
def ramensURL : String := baseURL ++ "/ramens"

/-- URL of the single-item endpoint for a given identifier. -/
def ramenURL (id : String) : String := baseURL ++ "/ramens/" ++ id

/-- The image element built for one fetched ramen inside `displayRamens`:
`src = ramen.image`, `alt = ramen.name`, `dataset.id = ramen.id`,
class `ramen-avatar`, click listener attached. -/
def makeRamenImg (ramen : Ramen) : ImgNode :=
  { src := ramen.image
    alt := ramen.name
    dataId := some ramen.id
    cssClasses := ["ramen-avatar"]
    hasClickHandler := true }

/-- Text of the failure message `displayRamens` writes into the container. -/
def failureMessage : String := "Failed to load ramen menu. Is the server running?"

/-- Result of one `displayRamens` invocation: the container content after
the continuation ran, the number of requests issued to the collection
endpoint, and the number of `console.error` calls. -/
structure LoadOutcome where
  container : List MenuChild
  requests : Nat
  logs : Nat
deriving Repr, DecidableEq

/-- `displayRamens`: issues one `GET /ramens`.  On success it clears the
container (`innerHTML = ''`) and appends one image per ramen in order; on
failure (transport error or `!response.ok`) it logs and replaces the
container content with the single failure paragraph.  The prior container
content is discarded in both branches. -/
def displayRamens (result : FetchResult (List Ramen)) (_prior : List MenuChild) :
    LoadOutcome :=
  match result with
  | .ok ramens =>
      { container := ramens.map (fun r => MenuChild.img (makeRamenImg r))
        requests := 1
        logs := 0 }
  | .error _ =>
      { container := [MenuChild.text failureMessage]
        requests := 1
        logs := 1 }

/-- The image nodes among the container's children (the selectable nodes). -/
def selectableNodes (container : List MenuChild) : List ImgNode :=
  container.filterMap (fun c =>
    match c with
    | .img n => some n
    | .text _ => none)

/-- Result of one click-handler invocation: detail view afterwards, the
URLs requested, and the number of `console.error` calls. -/
structure ClickOutcome where
  detail : DetailView
  requests : List String
  logs : Nat
deriving Repr, DecidableEq

/-- The JavaScript values `renderDetail` can receive as its argument:
`undefined`, `null`, booleans, numbers (with `NaN` separate), strings, or
a ramen object. -/
inductive RamenArg where
  | undefined
  | null
  | bool (b : Bool)
  | num (n : Int)
  | nan
  | str (s : String)
  | obj (ramen : Ramen)
deriving Repr, DecidableEq

/-- JavaScript truthiness, as tested by `if (!ramen)`. -/
def jsTruthy : RamenArg → Bool
  | .undefined => false
  | .null => false
  | .bool b => b
  | .num n => n != 0
  | .nan => false
  | .str s => s != ""
  | .obj _ => true

/-- JavaScript property read `ramen.image` followed by assignment to a DOM
string sink: on a non-object the read yields `undefined`, which stringifies
to `"undefined"`. -/
def getImage : RamenArg → String
  | .obj r => r.image
  | _ => "undefined"

/-- Property read `ramen.name` (stringified for the DOM sink). -/
def getName : RamenArg → String
  | .obj r => r.name
  | _ => "undefined"

/-- Property read `ramen.restaurant` (stringified for the DOM sink). -/
def getRestaurant : RamenArg → String
  | .obj r => r.restaurant
  | _ => "undefined"

/-- Property read `ramen.rating` (stringified for the DOM sink). -/
def getRating : RamenArg → String
  | .obj r => r.rating
  | _ => "undefined"

/-- Property read `ramen.comment` (stringified for the DOM sink). -/
def getComment : RamenArg → String
  | .obj r => r.comment
  | _ => "undefined"

/-- `renderDetail`: if the argument is falsy, log (`console.error`) and
return without mutation; otherwise write all five slots and set the image
alt to `Image of ` followed by the name.  Returns the detail view
afterwards and the number of `console.error` calls. -/
def renderDetail (ramen : RamenArg) (d : DetailView) : DetailView × Nat :=
  if !(jsTruthy ramen) then
    (d, 1)
  else
    ({ imageSrc := getImage ramen
       imageAlt := "Image of " ++ getName ramen
       name := getName ramen
       restaurant := getRestaurant ramen
       rating := getRating ramen
       comment := getComment ramen }, 0)

/-- The detail view written by the `.catch` branch of `handleClick`: fixed
error string in the name slot, the other three text slots cleared, the
image src set to the placeholder; the image alt is not touched. -/
def errorDetailState (d : DetailView) : DetailView :=
  { imageSrc := "placeholder.jpg"
    imageAlt := d.imageAlt
    name := "Error loading details"
    restaurant := ""
    rating := ""
    comment := "" }

/-- `handleClick`: reads `event.target.dataset.id`.  A missing attribute
reads as `undefined` and an empty string is likewise falsy; both log and
return without fetching.  Otherwise one `GET /ramens/:id` is issued; on
success the decoded ramen goes to `renderDetail`, on failure the handler
logs and writes the error detail state. -/
def handleClick (dataId : Option String) (remote : FetchResult Ramen)
    (d : DetailView) : ClickOutcome :=
  match dataId with
  | none => { detail := d, requests := [], logs := 1 }
  | some ramenId =>
      if ramenId = "" then
        { detail := d, requests := [], logs := 1 }
      else
        match remote with
        | .ok ramen =>
            let res := renderDetail (RamenArg.obj ramen) d
            { detail := res.1, requests := [ramenURL ramenId], logs := res.2 }
        | .error _ =>
            { detail := errorDetailState d
              requests := [ramenURL ramenId]
              logs := 1 }

/-- Activating (clicking) a node: the click handler runs only if a listener
was attached to the node; otherwise nothing happens. -/
def activate (node : ImgNode) (remote : FetchResult Ramen) (d : DetailView) :
    ClickOutcome :=
  if node.hasClickHandler then
    handleClick node.dataId remote d
  else
    { detail := d, requests := [], logs := 0 }

/-- A form's named controls: association list from control name to current
value, in document order. -/
abbrev FormControls : Type := List (String × String)

/-- Named access `form[controlName]`: the first control with that name, or
`undefined` when there is none. -/
def getControl (form : FormControls) (controlName : String) : Option String :=
  (List.find? (fun c => c.1 = controlName) form).map (fun c => c.2)

/-- `form[controlName].value`: reading `.value` of `undefined` throws a
TypeError, so the read is fallible. -/
def readValue (form : FormControls) (controlName : String) : Except String String :=
  match getControl form controlName with
  | some v => Except.ok v
  | none => Except.error ("TypeError: cannot read value of missing control " ++ controlName)

/-- `form.reset()`: every field goes back to its (empty) default value. -/
def resetForm (form : FormControls) : FormControls :=
  List.map (fun c => (c.1, "")) form

/-- `addNewRamenToMenu`: builds an image with the new ramen's `image` and
`name`, no `data-id` and no click listener, and appends it to the container. -/
def addNewRamenToMenu (ramenData : NewRamen) (container : List MenuChild) :
    List MenuChild :=
  container ++ [MenuChild.img
    { src := ramenData.image
      alt := ramenData.name
      dataId := none
      cssClasses := ["ramen-avatar"]
      hasClickHandler := false }]

/-- Result of a successful `handleFormSubmit` invocation. -/
structure SubmitOutcome where
  newRamen : NewRamen
  container : List MenuChild
  form : FormControls
  defaultPrevented : Bool
  requests : List String
deriving Repr, DecidableEq

/-- `handleFormSubmit`: prevents the default submission, reads the five
`new-*` control values in source order (each read throws if the control is
missing), builds the id-less ramen object, appends its image to the menu,
and resets the form.  No request is issued. -/
def handleFormSubmit (form : FormControls) (container : List MenuChild) :
    Except String SubmitOutcome :=
  match readValue form "new-name" with
  | Except.error e => Except.error e
  | Except.ok nameV =>
    match readValue form "new-restaurant" with
    | Except.error e => Except.error e
    | Except.ok restaurantV =>
      match readValue form "new-image" with
      | Except.error e => Except.error e
      | Except.ok imageV =>
        match readValue form "new-rating" with
        | Except.error e => Except.error e
        | Except.ok ratingV =>
          match readValue form "new-comment" with
          | Except.error e => Except.error e
          | Except.ok commentV =>
            let newRamen : NewRamen :=
              { name := nameV
                restaurant := restaurantV
                image := imageV
                rating := ratingV
                comment := commentV }
            Except.ok
              { newRamen := newRamen
                container := addNewRamenToMenu newRamen container
                form := resetForm form
                defaultPrevented := true
                requests := [] }

/-- The Local Append Handler as the claim words it (reading controls named
`name`, `restaurant`, `image`, `rating`, `comment`), for comparison with
the source's `handleFormSubmit`. -/
def handleFormSubmitClaimC6 (form : FormControls) (container : List MenuChild) :
    Except String SubmitOutcome :=
  match readValue form "name" with
  | Except.error e => Except.error e
  | Except.ok nameV =>
    match readValue form "restaurant" with
    | Except.error e => Except.error e
    | Except.ok restaurantV =>
      match readValue form "image" with
      | Except.error e => Except.error e
      | Except.ok imageV =>
        match readValue form "rating" with
        | Except.error e => Except.error e
        | Except.ok ratingV =>
          match readValue form "comment" with
          | Except.error e => Except.error e
          | Except.ok commentV =>
            let newRamen : NewRamen :=
              { name := nameV
                restaurant := restaurantV
                image := imageV
                rating := ratingV
                comment := commentV }
            Except.ok
              { newRamen := newRamen
                container := addNewRamenToMenu newRamen container
                form := resetForm form
                defaultPrevented := true
                requests := [] }

/-! ## Sample values used by witnesses -/

/-- The scenario item from the spec. -/
def ramenShoyu : Ramen :=
  { id := "1", name := "Shoyu", restaurant := "A", image := "a.jpg",
    rating := "8", comment := "good" }

/-- A detail view with all slots empty. -/
def blankDetail : DetailView :=
  { imageSrc := "", imageAlt := "", name := "", restaurant := "",
    rating := "", comment := "" }

/-- A filled-in form with the five controls the source reads. -/
def sampleForm : FormControls :=
  [("new-name", "Miso"), ("new-restaurant", "B"), ("new-image", "b.jpg"),
   ("new-rating", "7"), ("new-comment", "ok")]

/-- The outcome `handleFormSubmit` produces on `sampleForm` over an empty
container. -/
def sampleSubmitOutcome : SubmitOutcome :=
  { newRamen := { name := "Miso", restaurant := "B", image := "b.jpg",
                  rating := "7", comment := "ok" }
    container := [MenuChild.img
      { src := "b.jpg", alt := "Miso", dataId := none,
        cssClasses := ["ramen-avatar"], hasClickHandler := false }]
    form := [("new-name", ""), ("new-restaurant", ""), ("new-image", ""),
             ("new-rating", ""), ("new-comment", "")]
    defaultPrevented := true
    requests := [] }

/-- A form using the plain control names the C6 claim text mentions. -/
def plainNamesForm : FormControls :=
  [("name", "Shoyu"), ("restaurant", "A"), ("image", "a.jpg"),
   ("rating", "8"), ("comment", "good")]

/-! ## Claims -/

/-- C1: on a successful collection load, `displayRamens` discards the
prior container content and renders exactly one selectable node per
fetched item, in server order; the k-th node carries the k-th item's image
reference and identifier and has a click handler attached.  The last
conjunct shows the result does not depend on the prior content, i.e. the
container is cleared first. -/
theorem displayRamens_render_completeness (ramens : List Ramen)
    (prior prior2 : List MenuChild) :
    (displayRamens (FetchResult.ok ramens) prior).container.length = ramens.length ∧
    (∀ (k : Nat) (r : Ramen), ramens[k]? = some r →
      (displayRamens (FetchResult.ok ramens) prior).container[k]? =
        some (MenuChild.img
          { src := r.image
            alt := r.name
            dataId := some r.id
            cssClasses := ["ramen-avatar"]
            hasClickHandler := true })) ∧
    (displayRamens (FetchResult.ok ramens) prior).container =
      (displayRamens (FetchResult.ok ramens) prior2).container := by
  refine ⟨by simp [displayRamens], ?_, by simp [displayRamens]⟩
  intro k r hk
  simp [displayRamens, List.getElem?_map, hk, makeRamenImg]

/-- Witness for C1 at the one-item scenario list, discharging the
`ramens[k]? = some r` hypothesis at `k = 0`. -/
theorem displayRamens_render_completeness_witness :
    (displayRamens (FetchResult.ok [ramenShoyu]) [MenuChild.text "old"]).container[0]? =
      some (MenuChild.img
        { src := "a.jpg", alt := "Shoyu", dataId := some "1",
          cssClasses := ["ramen-avatar"], hasClickHandler := true }) :=
  (displayRamens_render_completeness [ramenShoyu] [MenuChild.text "old"] []).2.1
    0 ramenShoyu rfl

/-- C2: for every ramen object, `renderDetail` writes all five slots with
that item's fields and sets the image alt to `Image of ` plus the name,
with no diagnostic logged. -/
theorem renderDetail_fidelity (r : Ramen) (d : DetailView) :
    renderDetail (RamenArg.obj r) d =
      ({ imageSrc := r.image
         imageAlt := "Image of " ++ r.name
         name := r.name
         restaurant := r.restaurant
         rating := r.rating
         comment := r.comment }, 0) := by
  simp [renderDetail, jsTruthy, getImage, getName, getRestaurant, getRating,
    getComment]

/-- C3: whenever the form handler completes, the container gains exactly
one node; that node has no identifier and no click handler, activating it
issues no request and leaves every detail slot unchanged, and the form's
fields are reset to empty. -/
theorem handleFormSubmit_append_isolation (form : FormControls)
    (container : List MenuChild) (out : SubmitOutcome)
    (h : handleFormSubmit form container = Except.ok out)
    (remote : FetchResult Ramen) (d : DetailView) :
    ∃ node : ImgNode,
      out.container = container ++ [MenuChild.img node] ∧
      node.dataId = none ∧
      node.hasClickHandler = false ∧
      activate node remote d = { detail := d, requests := [], logs := 0 } ∧
      out.form = List.map (fun c => (c.1, "")) form := by
  unfold handleFormSubmit at h
  repeat' split at h
  all_goals simp_all
  subst h
  exact ⟨_, rfl, rfl, rfl, rfl, rfl⟩

/-- Witness for C3: the sample form over an empty container. -/
theorem handleFormSubmit_append_isolation_witness :
    ∃ node : ImgNode,
      sampleSubmitOutcome.container = [] ++ [MenuChild.img node] ∧
      node.dataId = none ∧
      node.hasClickHandler = false ∧
      activate node (FetchResult.error "down") blankDetail =
        { detail := blankDetail, requests := [], logs := 0 } ∧
      sampleSubmitOutcome.form = List.map (fun c => (c.1, "")) sampleForm :=
  handleFormSubmit_append_isolation sampleForm [] sampleSubmitOutcome rfl
    (FetchResult.error "down") blankDetail

/-- C4: on a failed collection load, `displayRamens` replaces the whole
container with the single failure message, leaving zero selectable nodes,
and issues exactly one request (no retry). -/
theorem displayRamens_failure_isolation (msg : String) (prior : List MenuChild) :
    displayRamens (FetchResult.error msg) prior =
      { container := [MenuChild.text failureMessage], requests := 1, logs := 1 } ∧
    selectableNodes (displayRamens (FetchResult.error msg) prior).container = [] := by
  constructor
  · rfl
  · rfl

/-- C5: when the single-item fetch fails for a node with a non-empty
identifier, the handler logs one diagnostic, issues exactly that one
request, and writes the error detail state: fixed error string in the name
slot, restaurant/rating/comment cleared, image set to the placeholder. -/
theorem handleClick_failure_state (id msg : String) (h : id ≠ "")
    (d : DetailView) :
    handleClick (some id) (FetchResult.error msg) d =
      { detail :=
          { imageSrc := "placeholder.jpg"
            imageAlt := d.imageAlt
            name := "Error loading details"
            restaurant := ""
            rating := ""
            comment := "" }
        requests := [ramenURL id]
        logs := 1 } := by
  simp [handleClick, errorDetailState, h]

/-- Witness for C5 at identifier `1`. -/
theorem handleClick_failure_state_witness :
    handleClick (some "1") (FetchResult.error "HTTP error") blankDetail =
      { detail :=
          { imageSrc := "placeholder.jpg"
            imageAlt := blankDetail.imageAlt
            name := "Error loading details"
            restaurant := ""
            rating := ""
            comment := "" }
        requests := [ramenURL "1"]
        logs := 1 } :=
  handleClick_failure_state "1" "HTTP error" (by decide) blankDetail

/-- C8: clicking a node whose stored identifier is absent logs one
diagnostic, issues no request, and leaves the whole detail view (all five
slots) unchanged, whatever the remote would have answered. -/
theorem handleClick_missing_id_aborts (remote : FetchResult Ramen)
    (d : DetailView) :
    handleClick none remote d = { detail := d, requests := [], logs := 1 } := rfl

/-- C9: `renderDetail` on `null` or `undefined` logs a diagnostic and
leaves the detail view untouched. -/
theorem renderDetail_null_no_mutation (d : DetailView) :
    renderDetail RamenArg.null d = (d, 1) ∧
    renderDetail RamenArg.undefined d = (d, 1) := by
  constructor <;> rfl

/-- C10: the guard `if (!ramen)` rejects every falsy argument, so `0`, the
empty string, `false` and `NaN` all log and leave the detail view
untouched. -/
theorem renderDetail_falsy_guard (d : DetailView) :
    renderDetail (RamenArg.num 0) d = (d, 1) ∧
    renderDetail (RamenArg.str "") d = (d, 1) ∧
    renderDetail (RamenArg.bool false) d = (d, 1) ∧
    renderDetail RamenArg.nan d = (d, 1) := by
  refine ⟨rfl, rfl, rfl, rfl⟩

/-- C6 counterexample: on a form whose controls carry exactly the names
the claim lists (`name`, `restaurant`, `image`, `rating`, `comment`), the
source handler throws on its very first read instead of constructing an
Item, while a handler reading those plain names (the claim's wording)
would succeed with the verbatim values.  The claim as stated is therefore
false: the source reads `new-name` ... `new-comment`. -/
theorem handleFormSubmit_plain_names_counterexample :
    handleFormSubmit plainNamesForm [] =
      Except.error "TypeError: cannot read value of missing control new-name" ∧
    handleFormSubmitClaimC6 plainNamesForm [] =
      Except.ok
        { newRamen := { name := "Shoyu", restaurant := "A", image := "a.jpg",
                        rating := "8", comment := "good" }
          container := [MenuChild.img
            { src := "a.jpg", alt := "Shoyu", dataId := none,
              cssClasses := ["ramen-avatar"], hasClickHandler := false }]
          form := [("name", ""), ("restaurant", ""), ("image", ""),
                   ("rating", ""), ("comment", "")]
          defaultPrevented := true
          requests := [] } := by
  constructor
  · rfl
  · rfl

/-- C6 amended: the handler reads the five field values from the controls
named `new-name`, `new-restaurant`, `new-image`, `new-rating`,
`new-comment`, takes each value verbatim (no coercion, validation or
trimming) and constructs the Item from exactly those five values; the
`NewRamen` record it builds has no identifier field, and no request is
issued. -/
theorem handleFormSubmit_reads_new_controls (form : FormControls)
    (container : List MenuChild) (nv rv iv gv cv : String)
    (h1 : getControl form "new-name" = some nv)
    (h2 : getControl form "new-restaurant" = some rv)
    (h3 : getControl form "new-image" = some iv)
    (h4 : getControl form "new-rating" = some gv)
    (h5 : getControl form "new-comment" = some cv) :
    ∃ out : SubmitOutcome,
      handleFormSubmit form container = Except.ok out ∧
      out.newRamen = { name := nv, restaurant := rv, image := iv,
                       rating := gv, comment := cv } ∧
      out.requests = [] := by
  have hq : handleFormSubmit form container = Except.ok
      { newRamen := { name := nv, restaurant := rv, image := iv,
                      rating := gv, comment := cv }
        container := addNewRamenToMenu
          { name := nv, restaurant := rv, image := iv,
            rating := gv, comment := cv } container
        form := resetForm form
        defaultPrevented := true
        requests := [] } := by
    simp [handleFormSubmit, readValue, h1, h2, h3, h4, h5]
  exact ⟨_, hq, rfl, rfl⟩

/-- Witness for the amended C6 at `sampleForm`. -/
theorem handleFormSubmit_reads_new_controls_witness :
    ∃ out : SubmitOutcome,
      handleFormSubmit sampleForm [] = Except.ok out ∧
      out.newRamen = { name := "Miso", restaurant := "B", image := "b.jpg",
                       rating := "7", comment := "ok" } ∧
      out.requests = [] :=
  handleFormSubmit_reads_new_controls sampleForm [] "Miso" "B" "b.jpg" "7" "ok"
    rfl rfl rfl rfl rfl

/-- C7 counterexample: with the `new-restaurant` control absent, the
handler throws a TypeError on `form.new-restaurant.value` instead of
defaulting the Item field to empty text, so extraction can fail. -/
theorem handleFormSubmit_absent_field_throws :
    handleFormSubmit [("new-name", "Miso")] [] =
      Except.error "TypeError: cannot read value of missing control new-restaurant" := rfl

/-- C7 amended: field extraction and Item construction cannot fail
whenever all five `new-*` controls are present on the submitting form;
when one is absent the handler raises a TypeError instead of defaulting
the field to empty text. -/
theorem handleFormSubmit_no_throw_when_controls_present (form : FormControls)
    (container : List MenuChild)
    (h1 : (getControl form "new-name").isSome = true)
    (h2 : (getControl form "new-restaurant").isSome = true)
    (h3 : (getControl form "new-image").isSome = true)
    (h4 : (getControl form "new-rating").isSome = true)
    (h5 : (getControl form "new-comment").isSome = true) :
    ∃ out : SubmitOutcome, handleFormSubmit form container = Except.ok out := by
  obtain ⟨nv, e1⟩ := Option.isSome_iff_exists.mp h1
  obtain ⟨rv, e2⟩ := Option.isSome_iff_exists.mp h2
  obtain ⟨iv, e3⟩ := Option.isSome_iff_exists.mp h3
  obtain ⟨gv, e4⟩ := Option.isSome_iff_exists.mp h4
  obtain ⟨cv, e5⟩ := Option.isSome_iff_exists.mp h5
  have hq : handleFormSubmit form container = Except.ok
      { newRamen := { name := nv, restaurant := rv, image := iv,
                      rating := gv, comment := cv }
        container := addNewRamenToMenu
          { name := nv, restaurant := rv, image := iv,
            rating := gv, comment := cv } container
        form := resetForm form
        defaultPrevented := true
        requests := [] } := by
    simp [handleFormSubmit, readValue, e1, e2, e3, e4, e5]
  exact ⟨_, hq⟩

/-- Witness for the amended C7 at `sampleForm`. -/
theorem handleFormSubmit_no_throw_when_controls_present_witness :
    ∃ out : SubmitOutcome, handleFormSubmit sampleForm [] = Except.ok out :=
  handleFormSubmit_no_throw_when_controls_present sampleForm []
    rfl rfl rfl rfl rfl
